import Mathlib

/-!
Verification of the sidecar config-update core of chanjarster/snmp_exporter.

The embedding models:
  * `src/sidecar/utils/fs/util.go` — `BackupFile`, `RestoreFile`, `CleanBackupFile`
    (rename-based shadow copy of a single path);
  * `src/sidecar/config_file.go` — `writeConfigFile`;
  * `src/sidecar/sidecar.go` — `UpdateConfigCmd.Validate`, `assertZoneIdMatch`,
    `doReload`, `UpdateConfigReload`, `ResetConfigReload`.

The filesystem is a map from paths to contents.  Outcomes of the external OS
calls (`os.Rename`, `os.WriteFile`, `os.Remove`) that the Go code merely
inspects are inputs of the model: each call site can be given an injected
"other" error through an `Oracle`, and otherwise behaves according to the
filesystem map (rename of a missing source yields the `os.IsNotExist` case).
The external yaml parser (`yaml.UnmarshalStrict` into `config.Config`, outside
this core) is a parameter `parse : String → Option String` returning `none` on
success and the library error message otherwise.  The reload handshake is a
synchronous rendezvous: the collaborator's reply is the oracle field `reply`;
`reply = none` means no reply is ever produced, in which case the Go code
blocks forever on `<-rc`, modelled as the run returning `none`.
-/

namespace Sidecar

/-- `unicode.IsSpace` of the Go standard library, restricted to the Latin-1
range it special-cases: space, tab, newline, vertical tab, form feed,
carriage return, NEL and NBSP. -/
def goIsSpace (c : Char) : Bool :=
  c == ' ' || c == '\t' || c == '\n' || c == '\x0b' || c == '\x0c' ||
    c == '\r' || c == '\u0085' || c == '\u00A0'

/-- `strings.TrimSpace` of the Go standard library: drop the leading and
trailing white-space characters. -/
def trimSpace (s : String) : String :=
  String.mk (((s.data.dropWhile goIsSpace).reverse.dropWhile goIsSpace).reverse)

/-- Errors as the Go code builds them: `errors.New`, `errs.ValidateError`,
`errs.ValidateErrors` (aggregate), and `errors.Wrapf` (which wraps a non-nil
cause with a message). -/
inductive GoError where
  | errorNew (msg : String)
  | validateErr (msg : String)
  | validateErrs (msgs : List String)
  | wrap (cause : GoError) (msg : String)
deriving DecidableEq, Repr

/-- Filesystem fragment: path to file content (`none` = file absent). -/
abbrev FS := String → Option String

/-- Full overwrite of a path, as `os.WriteFile` does. -/
def FS.write (fs : FS) (path content : String) : FS :=
  fun q => if q = path then some content else fs q

/-- Removal of a path, as `os.Remove` does. -/
def FS.removePath (fs : FS) (path : String) : FS :=
  fun q => if q = path then none else fs q

/-- Successful `os.Rename src dst` moving content `c`: `dst` gets `c`,
`src` disappears. -/
def FS.renameTo (fs : FS) (src dst c : String) : FS :=
  fun q => if q = dst then some c else if q = src then none else fs q

/-- Outcome of an OS call as the Go code discriminates it: success, an error
satisfying `os.IsNotExist`, or any other error. -/
inductive OsOutcome where
  | ok
  | notExist
  | otherErr (e : GoError)
deriving DecidableEq, Repr

/-- `os.Rename src dst`: an injected fault models any non-not-exist failure
(permissions, cross-device, ...); otherwise a missing source is the
`os.IsNotExist` case and an existing source is moved. -/
def osRename (fault : Option GoError) (fs : FS) (src dst : String) :
    FS × OsOutcome :=
  match fault with
  | some e => (fs, .otherErr e)
  | none =>
    match fs src with
    | none => (fs, .notExist)
    | some c => (FS.renameTo fs src dst c, .ok)

/-- `os.Remove path`: injected fault, or not-exist, or removal. -/
def osRemove (fault : Option GoError) (fs : FS) (path : String) :
    FS × OsOutcome :=
  match fault with
  | some e => (fs, .otherErr e)
  | none =>
    match fs path with
    | none => (fs, .notExist)
    | some _ => (FS.removePath fs path, .ok)

/-- `backupSuffix` from src/sidecar/utils/fs/util.go. -/
def backupSuffix : String := ".del"

/-- `BackupFile` (util.go): rename `originFile` to `originFile+".del"`; a
not-exist outcome (including successful rename, where the error is nil) yields
no error, any other failure is wrapped. -/
def BackupFile (fault : Option GoError) (fs : FS) (originFile : String) :
    FS × Option GoError :=
  match osRename fault fs originFile (originFile ++ backupSuffix) with
  | (fs1, .ok) => (fs1, none)
  | (fs1, .notExist) => (fs1, none)
  | (fs1, .otherErr e) =>
    (fs1, some (.wrap e ("Move file \"" ++ originFile ++ "\" => \"" ++
      (originFile ++ backupSuffix) ++ "\" failed")))

/-- `RestoreFile` (util.go): rename `originFile+".del"` back to `originFile`;
not-exist (and success) yield no error, other failures are wrapped. -/
def RestoreFile (fault : Option GoError) (fs : FS) (originFile : String) :
    FS × Option GoError :=
  match osRename fault fs (originFile ++ backupSuffix) originFile with
  | (fs1, .ok) => (fs1, none)
  | (fs1, .notExist) => (fs1, none)
  | (fs1, .otherErr e) =>
    (fs1, some (.wrap e ("Restore file \"" ++ (originFile ++ backupSuffix) ++
      "\" failed")))

/-- `CleanBackupFile` (util.go): remove `originFile+".del"`; not-exist (and
success) yield no error, other failures are wrapped. -/
def CleanBackupFile (fault : Option GoError) (fs : FS) (originFile : String) :
    FS × Option GoError :=
  match osRemove fault fs (originFile ++ backupSuffix) with
  | (fs1, .ok) => (fs1, none)
  | (fs1, .notExist) => (fs1, none)
  | (fs1, .otherErr e) =>
    (fs1, some (.wrap e ("Remove backup file \"" ++
      (originFile ++ backupSuffix) ++ "\" failed")))

/-- `configFileUtil.writeConfigFile` (config_file.go): `os.WriteFile` of the
yaml, wrapping any failure. -/
def writeConfigFile (fault : Option GoError) (fs : FS)
    (configFile yaml : String) : FS × Option GoError :=
  match fault with
  | some e =>
    (fs, some (.wrap e ("Write config file \"" ++ configFile ++ "\" failed")))
  | none => (FS.write fs configFile yaml, none)

/-- `UpdateConfigCmd` (sidecar.go). -/
structure UpdateConfigCmd where
  ZoneId : String
  Yaml : String
deriving DecidableEq, Repr

/-- `UpdateConfigCmd.Validate` (sidecar.go:39-55).  Trims `ZoneId` in place,
then collects all violations in order: blank zoneId, blank yaml, parse error
(`ParseConfig` wraps the library message with "error parsing config file: ",
`Validate` then puts "Invalid Yaml: " in front).  Returns the mutated command
together with the violation list. -/
def Validate (parse : String → Option String) (cmd : UpdateConfigCmd) :
    UpdateConfigCmd × List String :=
  ({ cmd with ZoneId := trimSpace cmd.ZoneId },
    (if trimSpace cmd.ZoneId = "" then ["ZoneId must not be blank"] else []) ++
    (if trimSpace cmd.Yaml = "" then ["Yaml must not be blank"] else []) ++
    (match parse cmd.Yaml with
     | some m => ["Invalid Yaml: error parsing config file: " ++ m]
     | none => []))

/-- The mutable fields of `sidecarService` (sidecar.go:87-94): the configured
config file path and the RuntimeInfo pair guarded by `runtimeLock`.
`lastUpdateTs` is a timestamp with `0` as the Go zero value `time.Time` under
the monotone clock reading. -/
structure SidecarService where
  configFile : String
  boundZoneId : String
  lastUpdateTs : Nat
deriving DecidableEq, Repr

/-- `sidecarService.assertZoneIdMatch` (sidecar.go:219-229). -/
def assertZoneIdMatch (s : SidecarService) (zoneId : String) : Option GoError :=
  if s.boundZoneId = "" then none
  else if s.boundZoneId ≠ zoneId then
    some (.validateErr ("Current snmp-exporter bound zoneId=" ++
      s.boundZoneId ++ ", command zoneId=" ++ zoneId ++ ", mismatch"))
  else none

/-- Environment of one run: injected OS-call failures for the four file
primitives (in call order), the reload collaborator's behaviour (`none` = no
reply is ever sent, otherwise the single value it sends on the reply channel),
the value `time.Now()` would yield at commit, and whether the caller's
`context.Context` is already done. -/
structure Oracle where
  backupFault : Option GoError
  writeFault : Option GoError
  restoreFault : Option GoError
  cleanFault : Option GoError
  reply : Option (Option GoError)
  now : Nat
  ctxDone : Bool

/-- Observable result of one run of an operation: the RuntimeInfo afterwards,
the filesystem afterwards, the returned error, and whether the lock was
acquired, the reload channel was used, and the deferred restore branch ran.
The whole run is `Option RunResult`; `none` means the call never returns
(blocked in the handshake). -/
structure RunResult where
  boundZoneId : String
  lastUpdateTs : Nat
  fs : FS
  err : Option GoError
  lockAcquired : Bool
  reloadAttempted : Bool
  restoreAttempted : Bool

/-- `sidecarService.doReload` (sidecar.go:249-256), given the collaborator's
reply: a non-nil reply is wrapped, nil passes through.  Note the function
has no access to the caller's context. -/
def doReload (reply : Option GoError) : Option GoError :=
  match reply with
  | some e => some (.wrap e "sidecar failed to reload config")
  | none => none

/-- The shared backup → write → reload → deferred commit-or-restore skeleton
of `UpdateConfigReload` (sidecar.go:144-170) and `ResetConfigReload`
(sidecar.go:189-216), which are textually identical except for the written
content and the RuntimeInfo committed on success.  The deferred function runs
the success branch (commit RuntimeInfo, `cleanBackupConfigFile`) when
`reloadErr` is nil and otherwise `restoreConfigFile`; errors of these cleanup
calls go to `printErr` (logging only) and never into the returned error. -/
def runTransaction (s : SidecarService) (fs : FS) (o : Oracle)
    (yaml succZone : String) (succTs : Nat) : Option RunResult :=
  match BackupFile o.backupFault fs s.configFile with
  | (fs1, some e) =>
    some ⟨s.boundZoneId, s.lastUpdateTs,
      (RestoreFile o.restoreFault fs1 s.configFile).1, some e, true, false, true⟩
  | (fs1, none) =>
    match writeConfigFile o.writeFault fs1 s.configFile yaml with
    | (fs2, some e) =>
      some ⟨s.boundZoneId, s.lastUpdateTs,
        (RestoreFile o.restoreFault fs2 s.configFile).1, some e, true, false, true⟩
    | (fs2, none) =>
      match o.reply with
      | none => none
      | some reply =>
        match doReload reply with
        | some e =>
          some ⟨s.boundZoneId, s.lastUpdateTs,
            (RestoreFile o.restoreFault fs2 s.configFile).1, some e,
            true, true, true⟩
        | none =>
          some ⟨succZone, succTs,
            (CleanBackupFile o.cleanFault fs2 s.configFile).1, none,
            true, true, false⟩

/-- `sidecarService.UpdateConfigReload` (sidecar.go:127-171): config-path
check, `Validate` (which trims the zoneId in place), lock, zone-match check,
then the shared transaction writing `cmd.Yaml` and committing
`lastUpdateTs = now`, `boundZoneId = cmd.ZoneId` on success. -/
def UpdateConfigReload (parse : String → Option String) (s : SidecarService)
    (fs : FS) (o : Oracle) (cmd : UpdateConfigCmd) : Option RunResult :=
  if trimSpace s.configFile = "" then
    some ⟨s.boundZoneId, s.lastUpdateTs, fs,
      some (.errorNew "--custom.config.file not provided"), false, false, false⟩
  else if (Validate parse cmd).2 ≠ [] then
    some ⟨s.boundZoneId, s.lastUpdateTs, fs,
      some (.validateErrs (Validate parse cmd).2), false, false, false⟩
  else
    match assertZoneIdMatch s (Validate parse cmd).1.ZoneId with
    | some e =>
      some ⟨s.boundZoneId, s.lastUpdateTs, fs, some e, true, false, false⟩
    | none =>
      runTransaction s fs o (Validate parse cmd).1.Yaml
        (Validate parse cmd).1.ZoneId o.now

/-- `sidecarService.ResetConfigReload` (sidecar.go:173-217): config-path
check, lock, trim of the zoneId argument, blank check, zone-match check, then
the shared transaction writing the empty string and committing
`boundZoneId = ""`, `lastUpdateTs = time zero` on success. -/
def ResetConfigReload (s : SidecarService) (fs : FS) (o : Oracle)
    (zoneId : String) : Option RunResult :=
  if trimSpace s.configFile = "" then
    some ⟨s.boundZoneId, s.lastUpdateTs, fs,
      some (.errorNew "--custom.config.file not provided"), false, false, false⟩
  else if trimSpace zoneId = "" then
    some ⟨s.boundZoneId, s.lastUpdateTs, fs,
      some (.validateErr "ZoneId must not be blank"), true, false, false⟩
  else
    match assertZoneIdMatch s (trimSpace zoneId) with
    | some e =>
      some ⟨s.boundZoneId, s.lastUpdateTs, fs, some e, true, false, false⟩
    | none => runTransaction s fs o "" "" 0

/-! ### Helper lemmas -/

theorem length_append_del (s : String) :
    (s ++ backupSuffix).length = s.length + 4 := by
  rw [String.length_append]
  rfl

theorem ne_del (s : String) : s ≠ s ++ backupSuffix := by
  intro h
  have h2 := congrArg String.length h
  rw [length_append_del] at h2
  omega

theorem del_ne (s : String) : s ++ backupSuffix ≠ s :=
  fun h => ne_del s h.symm

theorem FS.write_self (fs : FS) (p c : String) : FS.write fs p c p = some c := by
  simp [FS.write]

theorem FS.write_other (fs : FS) (p c q : String) (h : q ≠ p) :
    FS.write fs p c q = fs q := by
  simp [FS.write, h]

theorem FS.removePath_self (fs : FS) (p : String) : FS.removePath fs p p = none := by
  simp [FS.removePath]

theorem FS.removePath_other (fs : FS) (p q : String) (h : q ≠ p) :
    FS.removePath fs p q = fs q := by
  simp [FS.removePath, h]

theorem FS.renameTo_dst (fs : FS) (src dst c : String) :
    FS.renameTo fs src dst c dst = some c := by
  simp [FS.renameTo]

theorem FS.renameTo_src (fs : FS) (src dst c : String) (h : src ≠ dst) :
    FS.renameTo fs src dst c src = none := by
  simp [FS.renameTo, h]

theorem FS.renameTo_other (fs : FS) (src dst c q : String)
    (h1 : q ≠ dst) (h2 : q ≠ src) : FS.renameTo fs src dst c q = fs q := by
  simp [FS.renameTo, h1, h2]

theorem BackupFile_absent (fs : FS) (p : String) (h : fs p = none) :
    BackupFile none fs p = (fs, none) := by
  simp [BackupFile, osRename, h]

theorem BackupFile_present (fs : FS) (p c : String) (h : fs p = some c) :
    BackupFile none fs p = (FS.renameTo fs p (p ++ backupSuffix) c, none) := by
  simp [BackupFile, osRename, h]

theorem RestoreFile_absent (fs : FS) (p : String)
    (h : fs (p ++ backupSuffix) = none) : RestoreFile none fs p = (fs, none) := by
  simp [RestoreFile, osRename, h]

theorem RestoreFile_present (fs : FS) (p c : String)
    (h : fs (p ++ backupSuffix) = some c) :
    RestoreFile none fs p = (FS.renameTo fs (p ++ backupSuffix) p c, none) := by
  simp [RestoreFile, osRename, h]

theorem CleanBackupFile_absent (fs : FS) (p : String)
    (h : fs (p ++ backupSuffix) = none) :
    CleanBackupFile none fs p = (fs, none) := by
  simp [CleanBackupFile, osRemove, h]

theorem CleanBackupFile_present (fs : FS) (p c : String)
    (h : fs (p ++ backupSuffix) = some c) :
    CleanBackupFile none fs p = (FS.removePath fs (p ++ backupSuffix), none) := by
  simp [CleanBackupFile, osRemove, h]

theorem Validate_ok (parse : String → Option String) (cmd : UpdateConfigCmd)
    (hz : trimSpace cmd.ZoneId ≠ "") (hy : trimSpace cmd.Yaml ≠ "")
    (hp : parse cmd.Yaml = none) :
    Validate parse cmd = ({ cmd with ZoneId := trimSpace cmd.ZoneId }, []) := by
  simp [Validate, hz, hy, hp]

theorem assertZoneIdMatch_ok (s : SidecarService) (z : String)
    (h : s.boundZoneId = "" ∨ s.boundZoneId = z) :
    assertZoneIdMatch s z = none := by
  rcases h with h | h
  · simp [assertZoneIdMatch, h]
  · by_cases hz : z = "" <;> simp [assertZoneIdMatch, h, hz]

theorem runTransaction_success (s : SidecarService) (fs : FS) (o : Oracle)
    (yaml succZone : String) (succTs : Nat)
    (hb : o.backupFault = none) (hw : o.writeFault = none)
    (hc : o.cleanFault = none) (hr : o.reply = some none) :
    ∃ r, runTransaction s fs o yaml succZone succTs = some r ∧
      r.err = none ∧ r.boundZoneId = succZone ∧ r.lastUpdateTs = succTs ∧
      r.fs s.configFile = some yaml ∧
      r.fs (s.configFile ++ backupSuffix) = none ∧
      r.lockAcquired = true ∧ r.reloadAttempted = true := by
  have hne : s.configFile ++ backupSuffix ≠ s.configFile := del_ne s.configFile
  cases hfc : fs s.configFile with
  | none =>
    cases hdel : fs (s.configFile ++ backupSuffix) with
    | none =>
      have hdel2 : FS.write fs s.configFile yaml (s.configFile ++ backupSuffix) = none := by
        rw [FS.write_other fs s.configFile yaml _ hne]; exact hdel
      have heq : runTransaction s fs o yaml succZone succTs =
          some ⟨succZone, succTs, FS.write fs s.configFile yaml, none, true, true, false⟩ := by
        simp [runTransaction, hb, hw, hc, hr, BackupFile_absent fs s.configFile hfc,
          writeConfigFile, doReload, CleanBackupFile_absent _ _ hdel2]
      exact ⟨_, heq, rfl, rfl, rfl, FS.write_self fs s.configFile yaml, hdel2, rfl, rfl⟩
    | some d =>
      have hdel2 : FS.write fs s.configFile yaml (s.configFile ++ backupSuffix) = some d := by
        rw [FS.write_other fs s.configFile yaml _ hne]; exact hdel
      have heq : runTransaction s fs o yaml succZone succTs =
          some ⟨succZone, succTs,
            FS.removePath (FS.write fs s.configFile yaml) (s.configFile ++ backupSuffix),
            none, true, true, false⟩ := by
        simp [runTransaction, hb, hw, hc, hr, BackupFile_absent fs s.configFile hfc,
          writeConfigFile, doReload, CleanBackupFile_present _ _ _ hdel2]
      refine ⟨_, heq, rfl, rfl, rfl, ?_, ?_, rfl, rfl⟩
      · simp [FS.removePath, FS.write, ne_del s.configFile]
      · simp [FS.removePath]
  | some c =>
    have hdel2 : FS.write (FS.renameTo fs s.configFile (s.configFile ++ backupSuffix) c)
        s.configFile yaml (s.configFile ++ backupSuffix) = some c := by
      rw [FS.write_other _ s.configFile yaml _ hne]
      exact FS.renameTo_dst fs s.configFile _ c
    have heq : runTransaction s fs o yaml succZone succTs =
        some ⟨succZone, succTs,
          FS.removePath (FS.write (FS.renameTo fs s.configFile (s.configFile ++ backupSuffix) c)
            s.configFile yaml) (s.configFile ++ backupSuffix),
          none, true, true, false⟩ := by
      simp [runTransaction, hb, hw, hc, hr, BackupFile_present fs s.configFile c hfc,
        writeConfigFile, doReload, CleanBackupFile_present _ _ _ hdel2]
    refine ⟨_, heq, rfl, rfl, rfl, ?_, ?_, rfl, rfl⟩
    · simp [FS.removePath, FS.write, ne_del s.configFile]
    · simp [FS.removePath]

theorem runTransaction_reload_fail (s : SidecarService) (fs : FS) (o : Oracle)
    (yaml succZone : String) (succTs : Nat) (e : GoError) (c : String)
    (hb : o.backupFault = none) (hw : o.writeFault = none)
    (hres : o.restoreFault = none) (hr : o.reply = some (some e))
    (hfc : fs s.configFile = some c) :
    ∃ r, runTransaction s fs o yaml succZone succTs = some r ∧
      r.err = some (.wrap e "sidecar failed to reload config") ∧
      r.boundZoneId = s.boundZoneId ∧ r.lastUpdateTs = s.lastUpdateTs ∧
      r.fs s.configFile = some c ∧
      r.fs (s.configFile ++ backupSuffix) = none ∧
      r.reloadAttempted = true ∧ r.restoreAttempted = true := by
  have hne : s.configFile ++ backupSuffix ≠ s.configFile := del_ne s.configFile
  have hdel2 : FS.write (FS.renameTo fs s.configFile (s.configFile ++ backupSuffix) c)
      s.configFile yaml (s.configFile ++ backupSuffix) = some c := by
    rw [FS.write_other _ s.configFile yaml _ hne]
    exact FS.renameTo_dst fs s.configFile _ c
  have heq : runTransaction s fs o yaml succZone succTs =
      some ⟨s.boundZoneId, s.lastUpdateTs,
        FS.renameTo (FS.write (FS.renameTo fs s.configFile (s.configFile ++ backupSuffix) c)
          s.configFile yaml) (s.configFile ++ backupSuffix) s.configFile c,
        some (.wrap e "sidecar failed to reload config"), true, true, true⟩ := by
    simp [runTransaction, hb, hw, hr, hres, BackupFile_present fs s.configFile c hfc,
      writeConfigFile, doReload, RestoreFile_present _ _ _ hdel2]
  refine ⟨_, heq, rfl, rfl, rfl, ?_, ?_, rfl, rfl⟩
  · simp [FS.renameTo]
  · simp [FS.renameTo, hne, del_ne s.configFile]

theorem runTransaction_write_fail (s : SidecarService) (fs : FS) (o : Oracle)
    (yaml succZone : String) (succTs : Nat) (e : GoError)
    (hb : o.backupFault = none) (hw : o.writeFault = some e) :
    ∃ r, runTransaction s fs o yaml succZone succTs = some r ∧
      r.err = some (.wrap e ("Write config file \"" ++ s.configFile ++ "\" failed")) ∧
      r.boundZoneId = s.boundZoneId ∧ r.lastUpdateTs = s.lastUpdateTs ∧
      r.reloadAttempted = false ∧ r.restoreAttempted = true := by
  cases hfc : fs s.configFile with
  | none =>
    have heq : runTransaction s fs o yaml succZone succTs =
        some ⟨s.boundZoneId, s.lastUpdateTs,
          (RestoreFile o.restoreFault fs s.configFile).1,
          some (.wrap e ("Write config file \"" ++ s.configFile ++ "\" failed")),
          true, false, true⟩ := by
      simp [runTransaction, hb, hw, BackupFile_absent fs s.configFile hfc, writeConfigFile]
    exact ⟨_, heq, rfl, rfl, rfl, rfl, rfl⟩
  | some c =>
    have heq : runTransaction s fs o yaml succZone succTs =
        some ⟨s.boundZoneId, s.lastUpdateTs,
          (RestoreFile o.restoreFault
            (FS.renameTo fs s.configFile (s.configFile ++ backupSuffix) c) s.configFile).1,
          some (.wrap e ("Write config file \"" ++ s.configFile ++ "\" failed")),
          true, false, true⟩ := by
      simp [runTransaction, hb, hw, BackupFile_present fs s.configFile c hfc, writeConfigFile]
    exact ⟨_, heq, rfl, rfl, rfl, rfl, rfl⟩

theorem runTransaction_reload_fail_any_restore (s : SidecarService) (fs : FS)
    (o : Oracle) (yaml succZone : String) (succTs : Nat) (e : GoError)
    (hb : o.backupFault = none) (hw : o.writeFault = none)
    (hr : o.reply = some (some e)) :
    ∃ r, runTransaction s fs o yaml succZone succTs = some r ∧
      r.err = some (.wrap e "sidecar failed to reload config") ∧
      r.boundZoneId = s.boundZoneId ∧ r.lastUpdateTs = s.lastUpdateTs ∧
      r.reloadAttempted = true ∧ r.restoreAttempted = true := by
  cases hfc : fs s.configFile with
  | none =>
    have heq : runTransaction s fs o yaml succZone succTs =
        some ⟨s.boundZoneId, s.lastUpdateTs,
          (RestoreFile o.restoreFault (FS.write fs s.configFile yaml) s.configFile).1,
          some (.wrap e "sidecar failed to reload config"), true, true, true⟩ := by
      simp [runTransaction, hb, hw, hr, BackupFile_absent fs s.configFile hfc,
        writeConfigFile, doReload]
    exact ⟨_, heq, rfl, rfl, rfl, rfl, rfl⟩
  | some c =>
    have heq : runTransaction s fs o yaml succZone succTs =
        some ⟨s.boundZoneId, s.lastUpdateTs,
          (RestoreFile o.restoreFault
            (FS.write (FS.renameTo fs s.configFile (s.configFile ++ backupSuffix) c)
              s.configFile yaml) s.configFile).1,
          some (.wrap e "sidecar failed to reload config"), true, true, true⟩ := by
      simp [runTransaction, hb, hw, hr, BackupFile_present fs s.configFile c hfc,
        writeConfigFile, doReload]
    exact ⟨_, heq, rfl, rfl, rfl, rfl, rfl⟩

theorem assertZoneIdMatch_mismatch (s : SidecarService) (z : String)
    (h1 : s.boundZoneId ≠ "") (h2 : s.boundZoneId ≠ z) :
    assertZoneIdMatch s z = some (.validateErr
      ("Current snmp-exporter bound zoneId=" ++ s.boundZoneId ++
        ", command zoneId=" ++ z ++ ", mismatch")) := by
  simp [assertZoneIdMatch, h1, h2]

theorem UpdateConfigReload_valid (parse : String → Option String)
    (s : SidecarService) (fs : FS) (o : Oracle) (cmd : UpdateConfigCmd)
    (hcf : trimSpace s.configFile ≠ "")
    (hz : trimSpace cmd.ZoneId ≠ "") (hy : trimSpace cmd.Yaml ≠ "")
    (hp : parse cmd.Yaml = none)
    (hzone : s.boundZoneId = "" ∨ s.boundZoneId = trimSpace cmd.ZoneId) :
    UpdateConfigReload parse s fs o cmd =
      runTransaction s fs o cmd.Yaml (trimSpace cmd.ZoneId) o.now := by
  simp [UpdateConfigReload, hcf, Validate_ok parse cmd hz hy hp,
    assertZoneIdMatch_ok s _ hzone]

theorem ResetConfigReload_valid (s : SidecarService) (fs : FS) (o : Oracle)
    (zoneId : String) (hcf : trimSpace s.configFile ≠ "")
    (hz : trimSpace zoneId ≠ "")
    (hzone : s.boundZoneId = "" ∨ s.boundZoneId = trimSpace zoneId) :
    ResetConfigReload s fs o zoneId = runTransaction s fs o "" "" 0 := by
  simp [ResetConfigReload, hcf, hz, assertZoneIdMatch_ok s _ hzone]

/-! ### Claim theorems -/

/-- C2: with a configured config path, a valid command whose zoneId passes the
zone-match check, no OS-level fault, and a reload collaborator replying nil,
`UpdateConfigReload` returns no error, the config file afterwards holds
`cmd.Yaml`, `boundZoneId` equals the (trimmed-in-place) `cmd.ZoneId`,
`lastUpdateTs` is strictly greater than its pre-call value (the clock reading
`now` being later than it), and no `.del` backup file remains. -/
theorem update_success_round_trip (parse : String → Option String)
    (s : SidecarService) (fs : FS) (o : Oracle) (cmd : UpdateConfigCmd)
    (hcf : trimSpace s.configFile ≠ "")
    (hz : trimSpace cmd.ZoneId ≠ "") (hy : trimSpace cmd.Yaml ≠ "")
    (hp : parse cmd.Yaml = none)
    (hzone : s.boundZoneId = "" ∨ s.boundZoneId = trimSpace cmd.ZoneId)
    (hb : o.backupFault = none) (hw : o.writeFault = none)
    (hc : o.cleanFault = none) (hr : o.reply = some none)
    (hts : s.lastUpdateTs < o.now) :
    ∃ r, UpdateConfigReload parse s fs o cmd = some r ∧
      r.err = none ∧
      r.fs s.configFile = some cmd.Yaml ∧
      r.fs (s.configFile ++ backupSuffix) = none ∧
      r.boundZoneId = trimSpace cmd.ZoneId ∧
      s.lastUpdateTs < r.lastUpdateTs := by
  obtain ⟨r, hrun, he, hbz, hts2, hfs1, hfs2, _, _⟩ :=
    runTransaction_success s fs o cmd.Yaml (trimSpace cmd.ZoneId) o.now hb hw hc hr
  refine ⟨r, ?_, he, hfs1, hfs2, hbz, ?_⟩
  · rw [UpdateConfigReload_valid parse s fs o cmd hcf hz hy hp hzone]; exact hrun
  · rw [hts2]; exact hts

/-- C2 witness. -/
theorem update_success_round_trip_wit :
    ∃ r, UpdateConfigReload (fun _ => none) ⟨"cfg", "", 0⟩ (fun _ => some "old")
        ⟨none, none, none, none, some none, 5, false⟩ ⟨"z1", "y"⟩ = some r ∧
      r.err = none ∧
      r.fs "cfg" = some "y" ∧
      r.fs ("cfg" ++ backupSuffix) = none ∧
      r.boundZoneId = trimSpace "z1" ∧
      0 < r.lastUpdateTs :=
  update_success_round_trip (fun _ => none) ⟨"cfg", "", 0⟩ (fun _ => some "old")
    ⟨none, none, none, none, some none, 5, false⟩ ⟨"z1", "y"⟩
    (by decide) (by decide) (by decide) rfl (Or.inl rfl) rfl rfl rfl rfl (by decide)

/-- C1 counterexample: the claim quantifies over every state with a configured
config path, but when the config file does not exist before the call the
rename-based backup and restore are both no-ops, so a failed reload handshake
leaves the newly written (rejected) yaml on disk: starting from an empty
filesystem, the post-call content is the submitted yaml, not the pre-call
absence. -/
theorem update_rollback_cx :
    (UpdateConfigReload (fun _ => none) ⟨"cfg", "", 0⟩ (fun _ => none)
      ⟨none, none, none, none, some (some (.errorNew "boom")), 5, false⟩
      ⟨"z1", "y"⟩).map (fun r => (r.err, r.fs "cfg")) =
      some (some (.wrap (.errorNew "boom") "sidecar failed to reload config"),
        some "y") ∧
    (fun _ => none : FS) "cfg" = none :=
  ⟨by decide, rfl⟩

/-- C1 (amended: the config file must exist at the configured path before the
call): with a configured config path, a valid command passing the zone-match
check, no OS-level fault, and a reload collaborator replying an error,
`UpdateConfigReload` returns a wrapped error identifying reload failure, the
config file content and the RuntimeInfo (boundZoneId, lastUpdateTs) after the
call equal their pre-call values, and no `.del` backup file remains. -/
theorem update_rollback (parse : String → Option String)
    (s : SidecarService) (fs : FS) (o : Oracle) (cmd : UpdateConfigCmd)
    (e : GoError) (c : String)
    (hcf : trimSpace s.configFile ≠ "")
    (hz : trimSpace cmd.ZoneId ≠ "") (hy : trimSpace cmd.Yaml ≠ "")
    (hp : parse cmd.Yaml = none)
    (hzone : s.boundZoneId = "" ∨ s.boundZoneId = trimSpace cmd.ZoneId)
    (hb : o.backupFault = none) (hw : o.writeFault = none)
    (hres : o.restoreFault = none) (hr : o.reply = some (some e))
    (hfc : fs s.configFile = some c) :
    ∃ r, UpdateConfigReload parse s fs o cmd = some r ∧
      r.err = some (.wrap e "sidecar failed to reload config") ∧
      r.fs s.configFile = some c ∧
      r.fs (s.configFile ++ backupSuffix) = none ∧
      r.boundZoneId = s.boundZoneId ∧
      r.lastUpdateTs = s.lastUpdateTs := by
  obtain ⟨r, hrun, he, hbz, hts, hfs1, hfs2, _, _⟩ :=
    runTransaction_reload_fail s fs o cmd.Yaml (trimSpace cmd.ZoneId) o.now e c
      hb hw hres hr hfc
  refine ⟨r, ?_, he, hfs1, hfs2, hbz, hts⟩
  rw [UpdateConfigReload_valid parse s fs o cmd hcf hz hy hp hzone]; exact hrun

/-- C1 witness (for the amended claim). -/
theorem update_rollback_wit :
    ∃ r, UpdateConfigReload (fun _ => none) ⟨"cfg", "zz", 3⟩
        (fun q => if q = "cfg" then some "old" else none)
        ⟨none, none, none, none, some (some (.errorNew "boom")), 5, false⟩
        ⟨"zz", "y"⟩ = some r ∧
      r.err = some (.wrap (.errorNew "boom") "sidecar failed to reload config") ∧
      r.fs "cfg" = some "old" ∧
      r.fs ("cfg" ++ backupSuffix) = none ∧
      r.boundZoneId = "zz" ∧
      r.lastUpdateTs = 3 :=
  update_rollback (fun _ => none) ⟨"cfg", "zz", 3⟩
    (fun q => if q = "cfg" then some "old" else none)
    ⟨none, none, none, none, some (some (.errorNew "boom")), 5, false⟩
    ⟨"zz", "y"⟩ (.errorNew "boom") "old"
    (by decide) (by decide) (by decide) rfl (Or.inr (by decide)) rfl rfl rfl rfl
    (by decide)

/-- C6: with a configured config path and a non-blank zoneId passing the
zone-match check, no OS-level fault and a reload collaborator replying nil,
`ResetConfigReload` returns no error and afterwards the config file content is
the empty string, `boundZoneId` is cleared and `lastUpdateTs` is the zero
timestamp; no `.del` backup remains.  No yaml validation occurs on this path
(`ResetConfigReload` takes no parser). -/
theorem reset_success (s : SidecarService) (fs : FS) (o : Oracle)
    (zoneId : String)
    (hcf : trimSpace s.configFile ≠ "") (hz : trimSpace zoneId ≠ "")
    (hzone : s.boundZoneId = "" ∨ s.boundZoneId = trimSpace zoneId)
    (hb : o.backupFault = none) (hw : o.writeFault = none)
    (hc : o.cleanFault = none) (hr : o.reply = some none) :
    ∃ r, ResetConfigReload s fs o zoneId = some r ∧
      r.err = none ∧
      r.fs s.configFile = some "" ∧
      r.fs (s.configFile ++ backupSuffix) = none ∧
      r.boundZoneId = "" ∧
      r.lastUpdateTs = 0 := by
  obtain ⟨r, hrun, he, hbz, hts, hfs1, hfs2, _, _⟩ :=
    runTransaction_success s fs o "" "" 0 hb hw hc hr
  refine ⟨r, ?_, he, hfs1, hfs2, hbz, hts⟩
  rw [ResetConfigReload_valid s fs o zoneId hcf hz hzone]; exact hrun

/-- C6 witness. -/
theorem reset_success_wit :
    ∃ r, ResetConfigReload ⟨"cfg", "z1", 7⟩
        (fun q => if q = "cfg" then some "old" else none)
        ⟨none, none, none, none, some none, 9, false⟩ " z1 " = some r ∧
      r.err = none ∧
      r.fs "cfg" = some "" ∧
      r.fs ("cfg" ++ backupSuffix) = none ∧
      r.boundZoneId = "" ∧
      r.lastUpdateTs = 0 :=
  reset_success ⟨"cfg", "z1", 7⟩ (fun q => if q = "cfg" then some "old" else none)
    ⟨none, none, none, none, some none, 9, false⟩ " z1 "
    (by decide) (by decide) (Or.inr (by decide)) rfl rfl rfl rfl

/-- C3: on a configured service, a command with a blank (after trimming)
zoneId, a blank yaml, or a yaml rejected by the strict parser makes
`UpdateConfigReload` return a non-empty aggregate `ValidateErrors` containing
one entry per violated rule (all violations are collected), leaves the
filesystem and RuntimeInfo unchanged, and never touches the reload channel
(nor even acquires the lock). -/
theorem update_validation_failure (parse : String → Option String)
    (s : SidecarService) (fs : FS) (o : Oracle) (cmd : UpdateConfigCmd)
    (hcf : trimSpace s.configFile ≠ "")
    (hviol : trimSpace cmd.ZoneId = "" ∨ trimSpace cmd.Yaml = "" ∨
      ∃ m, parse cmd.Yaml = some m) :
    ∃ r es, UpdateConfigReload parse s fs o cmd = some r ∧
      r.err = some (.validateErrs es) ∧ es ≠ [] ∧
      es.length = ((if trimSpace cmd.ZoneId = "" then 1 else 0) +
        (if trimSpace cmd.Yaml = "" then 1 else 0) +
        (if (parse cmd.Yaml).isSome then 1 else 0)) ∧
      (trimSpace cmd.ZoneId = "" → "ZoneId must not be blank" ∈ es) ∧
      (trimSpace cmd.Yaml = "" → "Yaml must not be blank" ∈ es) ∧
      (∀ m, parse cmd.Yaml = some m →
        ("Invalid Yaml: error parsing config file: " ++ m) ∈ es) ∧
      r.fs = fs ∧ r.boundZoneId = s.boundZoneId ∧
      r.lastUpdateTs = s.lastUpdateTs ∧
      r.lockAcquired = false ∧ r.reloadAttempted = false := by
  have hne : (Validate parse cmd).2 ≠ [] := by
    rcases hviol with h | h | ⟨m, h⟩ <;> simp [Validate, h]
  have hrun : UpdateConfigReload parse s fs o cmd =
      some ⟨s.boundZoneId, s.lastUpdateTs, fs,
        some (.validateErrs (Validate parse cmd).2), false, false, false⟩ := by
    simp [UpdateConfigReload, hcf, hne]
  refine ⟨_, (Validate parse cmd).2, hrun, rfl, hne, ?_, ?_, ?_, ?_,
    rfl, rfl, rfl, rfl, rfl⟩
  · by_cases h1 : trimSpace cmd.ZoneId = "" <;>
      by_cases h2 : trimSpace cmd.Yaml = "" <;>
      cases h3 : parse cmd.Yaml <;> simp [Validate, h1, h2, h3]
  · intro h1; cases h3 : parse cmd.Yaml <;> simp [Validate, h1, h3]
  · intro h2; cases h3 : parse cmd.Yaml <;> simp [Validate, h2, h3]
  · intro m h3; simp [Validate, h3]

/-- C3 witness. -/
theorem update_validation_failure_wit :
    ∃ r es, UpdateConfigReload (fun _ => some "bad") ⟨"cfg", "z", 3⟩
        (fun _ => none) ⟨none, none, none, none, some none, 5, false⟩
        ⟨"  ", " "⟩ = some r ∧
      r.err = some (.validateErrs es) ∧ es ≠ [] ∧
      es.length = ((if trimSpace "  " = "" then 1 else 0) +
        (if trimSpace " " = "" then 1 else 0) +
        (if ((fun _ => some "bad") " " : Option String).isSome then 1 else 0)) ∧
      (trimSpace "  " = "" → "ZoneId must not be blank" ∈ es) ∧
      (trimSpace " " = "" → "Yaml must not be blank" ∈ es) ∧
      (∀ m, (fun _ => some "bad") " " = some m →
        ("Invalid Yaml: error parsing config file: " ++ m) ∈ es) ∧
      r.fs = (fun _ => none : FS) ∧ r.boundZoneId = "z" ∧ r.lastUpdateTs = 3 ∧
      r.lockAcquired = false ∧ r.reloadAttempted = false :=
  update_validation_failure (fun _ => some "bad") ⟨"cfg", "z", 3⟩ (fun _ => none)
    ⟨none, none, none, none, some none, 5, false⟩ ⟨"  ", " "⟩
    (by decide) (Or.inl (by decide))

/-- C4: evidence that the code ignores the caller's context.  With the context
already done and a collaborator that never replies, `UpdateConfigReload` never
returns (the run is `none`): `doReload` blocks on the reply channel without
selecting on `ctx.Done()`, so no restore is performed and no error returned,
contrary to the claim.  Moreover the outcome of every run is entirely
independent of whether the context is done. -/
theorem update_ignores_context :
    (UpdateConfigReload (fun _ => none) ⟨"cfg", "", 0⟩
      (fun q => if q = "cfg" then some "old" else none)
      ⟨none, none, none, none, none, 5, true⟩ ⟨"z1", "y"⟩ = none) ∧
    (∀ (parse : String → Option String) (s : SidecarService) (fs : FS)
      (bf wf rf cf : Option GoError) (rep : Option (Option GoError))
      (now : Nat) (cmd : UpdateConfigCmd) (zoneId : String),
      UpdateConfigReload parse s fs ⟨bf, wf, rf, cf, rep, now, true⟩ cmd =
        UpdateConfigReload parse s fs ⟨bf, wf, rf, cf, rep, now, false⟩ cmd ∧
      ResetConfigReload s fs ⟨bf, wf, rf, cf, rep, now, true⟩ zoneId =
        ResetConfigReload s fs ⟨bf, wf, rf, cf, rep, now, false⟩ zoneId) :=
  ⟨by rfl, fun _ _ _ _ _ _ _ _ _ _ _ => ⟨rfl, rfl⟩⟩

/-- C5: on a configured service with a valid command, the zone-match check is
decisive: when a zone is bound and differs from the command's (trimmed)
zoneId, `UpdateConfigReload` returns the mismatch `ValidateError`, mutates
nothing on disk and leaves RuntimeInfo unchanged; when no zone is bound, any
zoneId is accepted and becomes the binding on success. -/
theorem update_zone_match_check (parse : String → Option String)
    (s : SidecarService) (fs : FS) (o : Oracle) (cmd : UpdateConfigCmd)
    (hcf : trimSpace s.configFile ≠ "")
    (hz : trimSpace cmd.ZoneId ≠ "") (hy : trimSpace cmd.Yaml ≠ "")
    (hp : parse cmd.Yaml = none) :
    (s.boundZoneId ≠ "" → s.boundZoneId ≠ trimSpace cmd.ZoneId →
      ∃ r, UpdateConfigReload parse s fs o cmd = some r ∧
        r.err = some (.validateErr ("Current snmp-exporter bound zoneId=" ++
          s.boundZoneId ++ ", command zoneId=" ++ trimSpace cmd.ZoneId ++
          ", mismatch")) ∧
        r.fs = fs ∧ r.boundZoneId = s.boundZoneId ∧
        r.lastUpdateTs = s.lastUpdateTs ∧ r.reloadAttempted = false) ∧
    (s.boundZoneId = "" → o.backupFault = none → o.writeFault = none →
      o.cleanFault = none → o.reply = some none →
      ∃ r, UpdateConfigReload parse s fs o cmd = some r ∧
        r.err = none ∧ r.boundZoneId = trimSpace cmd.ZoneId) := by
  constructor
  · intro h1 h2
    have hrun : UpdateConfigReload parse s fs o cmd =
        some ⟨s.boundZoneId, s.lastUpdateTs, fs,
          some (.validateErr ("Current snmp-exporter bound zoneId=" ++
            s.boundZoneId ++ ", command zoneId=" ++ trimSpace cmd.ZoneId ++
            ", mismatch")), true, false, false⟩ := by
      simp [UpdateConfigReload, hcf, Validate_ok parse cmd hz hy hp,
        assertZoneIdMatch_mismatch s _ h1 h2]
    exact ⟨_, hrun, rfl, rfl, rfl, rfl, rfl⟩
  · intro h1 hb hw hc hr
    obtain ⟨r, hrun, he, hbz, _, _, _, _, _⟩ :=
      runTransaction_success s fs o cmd.Yaml (trimSpace cmd.ZoneId) o.now hb hw hc hr
    refine ⟨r, ?_, he, hbz⟩
    rw [UpdateConfigReload_valid parse s fs o cmd hcf hz hy hp (Or.inl h1)]
    exact hrun

/-- C5 witness. -/
theorem update_zone_match_check_wit :
    ((⟨"cfg", "zA", 3⟩ : SidecarService).boundZoneId ≠ "" →
      (⟨"cfg", "zA", 3⟩ : SidecarService).boundZoneId ≠ trimSpace "zB" →
      ∃ r, UpdateConfigReload (fun _ => none) ⟨"cfg", "zA", 3⟩
          (fun _ => some "old") ⟨none, none, none, none, some none, 5, false⟩
          ⟨"zB", "y"⟩ = some r ∧
        r.err = some (.validateErr ("Current snmp-exporter bound zoneId=" ++
          "zA" ++ ", command zoneId=" ++ trimSpace "zB" ++ ", mismatch")) ∧
        r.fs = (fun _ => some "old" : FS) ∧ r.boundZoneId = "zA" ∧
        r.lastUpdateTs = 3 ∧ r.reloadAttempted = false) ∧
    ((⟨"cfg", "zA", 3⟩ : SidecarService).boundZoneId = "" →
      (none : Option GoError) = none → (none : Option GoError) = none →
      (none : Option GoError) = none →
      (some none : Option (Option GoError)) = some none →
      ∃ r, UpdateConfigReload (fun _ => none) ⟨"cfg", "zA", 3⟩
          (fun _ => some "old") ⟨none, none, none, none, some none, 5, false⟩
          ⟨"zB", "y"⟩ = some r ∧
        r.err = none ∧ r.boundZoneId = trimSpace "zB") :=
  update_zone_match_check (fun _ => none) ⟨"cfg", "zA", 3⟩ (fun _ => some "old")
    ⟨none, none, none, none, some none, 5, false⟩ ⟨"zB", "y"⟩
    (by decide) (by decide) (by decide) rfl

/-- C7: in every run of `UpdateConfigReload` or `ResetConfigReload` in which
backup succeeded (no injected backup fault) and a later step failed — the
write or the reload handshake — the deferred restore branch runs before the
call returns, and the returned error is the original write/reload failure.
The restore fault `o.restoreFault` is left universally quantified (it is not
constrained by any hypothesis), so a failing restore never replaces the
original error: its outcome goes to `printErr` (logging) only. -/
theorem rollback_keeps_original_error (parse : String → Option String)
    (s : SidecarService) (fs : FS) (o : Oracle) (cmd : UpdateConfigCmd)
    (zoneId : String)
    (hcf : trimSpace s.configFile ≠ "")
    (hb : o.backupFault = none)
    (hz : trimSpace cmd.ZoneId ≠ "") (hy : trimSpace cmd.Yaml ≠ "")
    (hp : parse cmd.Yaml = none)
    (hzone : s.boundZoneId = "" ∨ s.boundZoneId = trimSpace cmd.ZoneId)
    (hz2 : trimSpace zoneId ≠ "")
    (hzone2 : s.boundZoneId = "" ∨ s.boundZoneId = trimSpace zoneId) :
    (∀ e, o.writeFault = some e →
      ∃ r, UpdateConfigReload parse s fs o cmd = some r ∧
        r.err = some (.wrap e ("Write config file \"" ++ s.configFile ++
          "\" failed")) ∧
        r.restoreAttempted = true) ∧
    (∀ e, o.writeFault = none → o.reply = some (some e) →
      ∃ r, UpdateConfigReload parse s fs o cmd = some r ∧
        r.err = some (.wrap e "sidecar failed to reload config") ∧
        r.restoreAttempted = true) ∧
    (∀ e, o.writeFault = some e →
      ∃ r, ResetConfigReload s fs o zoneId = some r ∧
        r.err = some (.wrap e ("Write config file \"" ++ s.configFile ++
          "\" failed")) ∧
        r.restoreAttempted = true) ∧
    (∀ e, o.writeFault = none → o.reply = some (some e) →
      ∃ r, ResetConfigReload s fs o zoneId = some r ∧
        r.err = some (.wrap e "sidecar failed to reload config") ∧
        r.restoreAttempted = true) := by
  refine ⟨?_, ?_, ?_, ?_⟩
  · intro e hw
    obtain ⟨r, hrun, he, _, _, _, hrest⟩ :=
      runTransaction_write_fail s fs o cmd.Yaml (trimSpace cmd.ZoneId) o.now e hb hw
    refine ⟨r, ?_, he, hrest⟩
    rw [UpdateConfigReload_valid parse s fs o cmd hcf hz hy hp hzone]; exact hrun
  · intro e hw hr
    obtain ⟨r, hrun, he, _, _, _, hrest⟩ :=
      runTransaction_reload_fail_any_restore s fs o cmd.Yaml
        (trimSpace cmd.ZoneId) o.now e hb hw hr
    refine ⟨r, ?_, he, hrest⟩
    rw [UpdateConfigReload_valid parse s fs o cmd hcf hz hy hp hzone]; exact hrun
  · intro e hw
    obtain ⟨r, hrun, he, _, _, _, hrest⟩ :=
      runTransaction_write_fail s fs o "" "" 0 e hb hw
    refine ⟨r, ?_, he, hrest⟩
    rw [ResetConfigReload_valid s fs o zoneId hcf hz2 hzone2]; exact hrun
  · intro e hw hr
    obtain ⟨r, hrun, he, _, _, _, hrest⟩ :=
      runTransaction_reload_fail_any_restore s fs o "" "" 0 e hb hw hr
    refine ⟨r, ?_, he, hrest⟩
    rw [ResetConfigReload_valid s fs o zoneId hcf hz2 hzone2]; exact hrun

/-- C7 witness (oracle with a failing reload reply and a failing restore: the
returned error is still the reload failure). -/
theorem rollback_keeps_original_error_wit :
    (∀ e, (none : Option GoError) = some e →
      ∃ r, UpdateConfigReload (fun _ => none) ⟨"cfg", "", 0⟩ (fun _ => some "old")
          ⟨none, none, some (.errorNew "restorefail"), none,
            some (some (.errorNew "boom")), 5, false⟩ ⟨"z1", "y"⟩ = some r ∧
        r.err = some (.wrap e ("Write config file \"" ++ "cfg" ++ "\" failed")) ∧
        r.restoreAttempted = true) ∧
    (∀ e, (none : Option GoError) = none →
      (some (some (.errorNew "boom")) : Option (Option GoError)) = some (some e) →
      ∃ r, UpdateConfigReload (fun _ => none) ⟨"cfg", "", 0⟩ (fun _ => some "old")
          ⟨none, none, some (.errorNew "restorefail"), none,
            some (some (.errorNew "boom")), 5, false⟩ ⟨"z1", "y"⟩ = some r ∧
        r.err = some (.wrap e "sidecar failed to reload config") ∧
        r.restoreAttempted = true) ∧
    (∀ e, (none : Option GoError) = some e →
      ∃ r, ResetConfigReload ⟨"cfg", "", 0⟩ (fun _ => some "old")
          ⟨none, none, some (.errorNew "restorefail"), none,
            some (some (.errorNew "boom")), 5, false⟩ "z1" = some r ∧
        r.err = some (.wrap e ("Write config file \"" ++ "cfg" ++ "\" failed")) ∧
        r.restoreAttempted = true) ∧
    (∀ e, (none : Option GoError) = none →
      (some (some (.errorNew "boom")) : Option (Option GoError)) = some (some e) →
      ∃ r, ResetConfigReload ⟨"cfg", "", 0⟩ (fun _ => some "old")
          ⟨none, none, some (.errorNew "restorefail"), none,
            some (some (.errorNew "boom")), 5, false⟩ "z1" = some r ∧
        r.err = some (.wrap e "sidecar failed to reload config") ∧
        r.restoreAttempted = true) :=
  rollback_keeps_original_error (fun _ => none) ⟨"cfg", "", 0⟩ (fun _ => some "old")
    ⟨none, none, some (.errorNew "restorefail"), none,
      some (some (.errorNew "boom")), 5, false⟩ ⟨"z1", "y"⟩ "z1"
    (by decide) rfl (by decide) (by decide) rfl (Or.inl rfl) (by decide)
    (Or.inl rfl)

/-- C8: `RestoreFile` succeeds as a no-op, returning no error and changing no
file, when the backup `path+".del"` is absent; consequently a second restore
immediately after a first one (whatever the first did) is such a no-op, so
calling restore twice equals calling it once. -/
theorem restore_noop_idempotent (fs : FS) (p : String) :
    (fs (p ++ backupSuffix) = none → RestoreFile none fs p = (fs, none)) ∧
    RestoreFile none (RestoreFile none fs p).1 p =
      ((RestoreFile none fs p).1, none) := by
  constructor
  · exact fun h => RestoreFile_absent fs p h
  · cases hdel : fs (p ++ backupSuffix) with
    | none =>
      rw [RestoreFile_absent fs p hdel]
      exact RestoreFile_absent fs p hdel
    | some c =>
      rw [RestoreFile_present fs p c hdel]
      apply RestoreFile_absent
      simp [FS.renameTo, del_ne p]

/-- C8 witness. -/
theorem restore_noop_idempotent_wit :
    RestoreFile none (fun _ => none : FS) "cfg" = ((fun _ => none : FS), none) :=
  (restore_noop_idempotent (fun _ => none) "cfg").1 rfl

/-- C9: when the configured config file path is blank (empty or
whitespace-only), both `UpdateConfigReload` and `ResetConfigReload` fail with
the configuration error naming the missing path flag, without acquiring the
lock and without touching the filesystem, the RuntimeInfo or the reload
channel. -/
theorem missing_config_path_rejected (parse : String → Option String)
    (s : SidecarService) (fs : FS) (o : Oracle) (cmd : UpdateConfigCmd)
    (zoneId : String) (hcf : trimSpace s.configFile = "") :
    (∃ r, UpdateConfigReload parse s fs o cmd = some r ∧
      r.err = some (.errorNew "--custom.config.file not provided") ∧
      r.fs = fs ∧ r.boundZoneId = s.boundZoneId ∧
      r.lastUpdateTs = s.lastUpdateTs ∧
      r.lockAcquired = false ∧ r.reloadAttempted = false) ∧
    (∃ r, ResetConfigReload s fs o zoneId = some r ∧
      r.err = some (.errorNew "--custom.config.file not provided") ∧
      r.fs = fs ∧ r.boundZoneId = s.boundZoneId ∧
      r.lastUpdateTs = s.lastUpdateTs ∧
      r.lockAcquired = false ∧ r.reloadAttempted = false) := by
  have h1 : UpdateConfigReload parse s fs o cmd =
      some ⟨s.boundZoneId, s.lastUpdateTs, fs,
        some (.errorNew "--custom.config.file not provided"),
        false, false, false⟩ := by
    simp [UpdateConfigReload, hcf]
  have h2 : ResetConfigReload s fs o zoneId =
      some ⟨s.boundZoneId, s.lastUpdateTs, fs,
        some (.errorNew "--custom.config.file not provided"),
        false, false, false⟩ := by
    simp [ResetConfigReload, hcf]
  exact ⟨⟨_, h1, rfl, rfl, rfl, rfl, rfl, rfl⟩,
    ⟨_, h2, rfl, rfl, rfl, rfl, rfl, rfl⟩⟩

/-- C9 witness. -/
theorem missing_config_path_rejected_wit :
    (∃ r, UpdateConfigReload (fun _ => none) ⟨"  ", "z", 3⟩ (fun _ => some "old")
        ⟨none, none, none, none, some none, 5, false⟩ ⟨"z1", "y"⟩ = some r ∧
      r.err = some (.errorNew "--custom.config.file not provided") ∧
      r.fs = (fun _ => some "old" : FS) ∧ r.boundZoneId = "z" ∧
      r.lastUpdateTs = 3 ∧
      r.lockAcquired = false ∧ r.reloadAttempted = false) ∧
    (∃ r, ResetConfigReload ⟨"  ", "z", 3⟩ (fun _ => some "old")
        ⟨none, none, none, none, some none, 5, false⟩ "z1" = some r ∧
      r.err = some (.errorNew "--custom.config.file not provided") ∧
      r.fs = (fun _ => some "old" : FS) ∧ r.boundZoneId = "z" ∧
      r.lastUpdateTs = 3 ∧
      r.lockAcquired = false ∧ r.reloadAttempted = false) :=
  missing_config_path_rejected (fun _ => none) ⟨"  ", "z", 3⟩
    (fun _ => some "old") ⟨none, none, none, none, some none, 5, false⟩
    ⟨"z1", "y"⟩ "z1" (by decide)

/-- C10: both operations work on the whitespace-trimmed zoneId.  `Validate`
replaces `cmd.ZoneId` by its trimmed form in place before any check, a
whitespace-only zoneId is rejected as blank on both paths, a successful update
binds the trimmed zoneId, and `ResetConfigReload` trims its argument before
the blank check and the zone-match check, so an argument surrounded by
whitespace matches a binding equal to its trimmed form. -/
theorem zoneid_trimming (parse : String → Option String) (s : SidecarService)
    (fs : FS) (o : Oracle) (cmd : UpdateConfigCmd) (zoneId : String)
    (hcf : trimSpace s.configFile ≠ "") :
    ((Validate parse cmd).1.ZoneId = trimSpace cmd.ZoneId) ∧
    (trimSpace cmd.ZoneId = "" →
      ∃ r es, UpdateConfigReload parse s fs o cmd = some r ∧
        r.err = some (.validateErrs es) ∧ "ZoneId must not be blank" ∈ es) ∧
    (trimSpace cmd.ZoneId ≠ "" → trimSpace cmd.Yaml ≠ "" →
      parse cmd.Yaml = none →
      (s.boundZoneId = "" ∨ s.boundZoneId = trimSpace cmd.ZoneId) →
      o.backupFault = none → o.writeFault = none → o.cleanFault = none →
      o.reply = some none →
      ∃ r, UpdateConfigReload parse s fs o cmd = some r ∧
        r.boundZoneId = trimSpace cmd.ZoneId) ∧
    (trimSpace zoneId = "" →
      ∃ r, ResetConfigReload s fs o zoneId = some r ∧
        r.err = some (.validateErr "ZoneId must not be blank")) ∧
    (trimSpace zoneId ≠ "" → s.boundZoneId = trimSpace zoneId →
      o.backupFault = none → o.writeFault = none → o.cleanFault = none →
      o.reply = some none →
      ∃ r, ResetConfigReload s fs o zoneId = some r ∧
        r.err = none ∧ r.boundZoneId = "") := by
  refine ⟨rfl, ?_, ?_, ?_, ?_⟩
  · intro h1
    have hne : (Validate parse cmd).2 ≠ [] := by simp [Validate, h1]
    have hrun : UpdateConfigReload parse s fs o cmd =
        some ⟨s.boundZoneId, s.lastUpdateTs, fs,
          some (.validateErrs (Validate parse cmd).2), false, false, false⟩ := by
      simp [UpdateConfigReload, hcf, hne]
    exact ⟨_, (Validate parse cmd).2, hrun, rfl, by simp [Validate, h1]⟩
  · intro hz hy hp hzone hb hw hc hr
    obtain ⟨r, hrun, _, hbz, _, _, _, _, _⟩ :=
      runTransaction_success s fs o cmd.Yaml (trimSpace cmd.ZoneId) o.now hb hw hc hr
    refine ⟨r, ?_, hbz⟩
    rw [UpdateConfigReload_valid parse s fs o cmd hcf hz hy hp hzone]; exact hrun
  · intro h1
    have hrun : ResetConfigReload s fs o zoneId =
        some ⟨s.boundZoneId, s.lastUpdateTs, fs,
          some (.validateErr "ZoneId must not be blank"), true, false, false⟩ := by
      simp [ResetConfigReload, hcf, h1]
    exact ⟨_, hrun, rfl⟩
  · intro hz hmatch hb hw hc hr
    obtain ⟨r, hrun, he, hbz, _, _, _, _, _⟩ :=
      runTransaction_success s fs o "" "" 0 hb hw hc hr
    refine ⟨r, ?_, he, hbz⟩
    rw [ResetConfigReload_valid s fs o zoneId hcf hz (Or.inr hmatch)]; exact hrun

/-- C10 witness (zoneId arguments surrounded by whitespace). -/
theorem zoneid_trimming_wit :
    ((Validate (fun _ => none) ⟨" z1 ", "y"⟩).1.ZoneId = trimSpace " z1 ") ∧
    (trimSpace " z1 " = "" →
      ∃ r es, UpdateConfigReload (fun _ => none) ⟨"cfg", "z1", 3⟩
          (fun _ => some "old") ⟨none, none, none, none, some none, 5, false⟩
          ⟨" z1 ", "y"⟩ = some r ∧
        r.err = some (.validateErrs es) ∧ "ZoneId must not be blank" ∈ es) ∧
    (trimSpace " z1 " ≠ "" → trimSpace "y" ≠ "" →
      (fun _ => none : String → Option String) "y" = none →
      ((⟨"cfg", "z1", 3⟩ : SidecarService).boundZoneId = "" ∨
        (⟨"cfg", "z1", 3⟩ : SidecarService).boundZoneId = trimSpace " z1 ") →
      (none : Option GoError) = none → (none : Option GoError) = none →
      (none : Option GoError) = none →
      (some none : Option (Option GoError)) = some none →
      ∃ r, UpdateConfigReload (fun _ => none) ⟨"cfg", "z1", 3⟩
          (fun _ => some "old") ⟨none, none, none, none, some none, 5, false⟩
          ⟨" z1 ", "y"⟩ = some r ∧
        r.boundZoneId = trimSpace " z1 ") ∧
    (trimSpace " z1 " = "" →
      ∃ r, ResetConfigReload ⟨"cfg", "z1", 3⟩ (fun _ => some "old")
          ⟨none, none, none, none, some none, 5, false⟩ " z1 " = some r ∧
        r.err = some (.validateErr "ZoneId must not be blank")) ∧
    (trimSpace " z1 " ≠ "" →
      (⟨"cfg", "z1", 3⟩ : SidecarService).boundZoneId = trimSpace " z1 " →
      (none : Option GoError) = none → (none : Option GoError) = none →
      (none : Option GoError) = none →
      (some none : Option (Option GoError)) = some none →
      ∃ r, ResetConfigReload ⟨"cfg", "z1", 3⟩ (fun _ => some "old")
          ⟨none, none, none, none, some none, 5, false⟩ " z1 " = some r ∧
        r.err = none ∧ r.boundZoneId = "") :=
  zoneid_trimming (fun _ => none) ⟨"cfg", "z1", 3⟩ (fun _ => some "old")
    ⟨none, none, none, none, some none, 5, false⟩ ⟨" z1 ", "y"⟩ " z1 "
    (by decide)

end Sidecar
